import Mathlib

/-!
Verification of the core of `cargo-minimize` against its specification.

The development shallowly embeds the three subsystems the specification
describes: the per-file delta-debugging state machine (`PassController`,
from `src/processor/mod.rs`), the driver entry point (`Minimizer.run_passes`,
from `src/processor/mod.rs`), and the transactional file-change discipline
(`SourceFile` / `FileChange`, from `src/processor/files.rs`).

Rust panics (`unreachable!`, `assert!`, `todo!`) are modelled as `Except`
errors carrying a `Panic` tag; fallible operations return `Except`.
External collaborators (the formatter, the parser, the file system write,
the build/verifier) are parameters, matching the specification's scoping:
they are out of scope and referenced only through their interfaces.
-/

namespace CargoMinimize

/-- An `AstPath` is an ordered sequence of string segments identifying a
location within one file's tree (`struct AstPath(Vec<String>)`). -/
abbrev AstPath := List String

/-- The panics the embedded code can raise.  Each constructor corresponds to
one `unreachable!` / `assert!` / `todo!` site in the source. -/
inductive Panic where
  /-- `unreachable!("Processed after success")` and
      `unreachable!("Processed further after success")`. -/
  | processedAfterSuccess
  /-- the `todo!()` in `does_not_reproduce` for the `Bisecting` state. -/
  | todoBisect
  /-- `assert!(candidates.is_empty(), ...)` in `no_change`. -/
  | noChangeWithCandidates
  /-- `unreachable!("No change while bisecting, current was empty somehow")`. -/
  | noChangeWhileBisecting
  /-- `assert!(self.has_written_change)` in `FileChange::{rollback, commit}`. -/
  | assertionFailed
  deriving DecidableEq, Repr

/-- `enum PassControllerState` from `src/processor/mod.rs`.  The Rust
`HashSet<AstPath>` is modelled as a `Finset AstPath`. -/
inductive PassControllerState where
  | initialCollection (candidates : List AstPath)
  | bisecting (current : Finset AstPath) (worklist : List (List AstPath))
  | success
  deriving DecidableEq

namespace PassController

/-- `PassController::new`: start in `InitialCollection` with no candidates. -/
def new : PassControllerState := .initialCollection []

/-- `PassController::reproduces`.  In `Bisecting`, `Vec::pop` removes the
*last* worklist entry; `next.into_iter().collect()` turns it into a set. -/
def reproduces : PassControllerState → Except Panic PassControllerState
  | .initialCollection _ => .ok .success
  | .bisecting _ worklist =>
    match worklist.getLast? with
    | some next => .ok (.bisecting next.toFinset worklist.dropLast)
    | none => .ok .success
  | .success => .error .processedAfterSuccess

/-- `PassController::does_not_reproduce`.  From `InitialCollection`,
`candidates.split_at(candidates.len() / 2)` gives the two halves; the first
half is collected into the `current` set, the second pushed as the sole
worklist entry.  The `Bisecting` arm is `todo!()` in the source. -/
def does_not_reproduce : PassControllerState → Except Panic PassControllerState
  | .initialCollection candidates =>
    let half := candidates.length / 2
    .ok (.bisecting (candidates.take half).toFinset [candidates.drop half])
  | .bisecting _ _ => .error .todoBisect
  | .success => .error .processedAfterSuccess

/-- `PassController::no_change`. -/
def no_change : PassControllerState → Except Panic PassControllerState
  | .initialCollection candidates =>
    if candidates.isEmpty then .ok .success else .error .noChangeWithCandidates
  | .bisecting _ _ => .error .noChangeWhileBisecting
  | .success => .ok .success

/-- `PassController::is_finished`. -/
def is_finished : PassControllerState → Bool
  | .initialCollection _ => false
  | .bisecting _ _ => false
  | .success => true

/-- `PassController::can_process`: in `InitialCollection` the path is pushed
onto `candidates` and `true` returned; in `Bisecting` the result is
`current.contains(path)` and the state is untouched; after `Success` the
call is `unreachable!`. -/
def can_process (path : AstPath) :
    PassControllerState → Except Panic (Bool × PassControllerState)
  | .initialCollection candidates =>
    .ok (true, .initialCollection (candidates ++ [path]))
  | .bisecting current worklist =>
    .ok (decide (path ∈ current), .bisecting current worklist)
  | .success => .error .processedAfterSuccess

/-- One verifier verdict reported back to the controller by the driver. -/
inductive Verdict where
  | reproduces
  | does_not_reproduce
  | no_change
  deriving DecidableEq, Repr

/-- Feed one verdict to the controller. -/
def step : Verdict → PassControllerState → Except Panic PassControllerState
  | .reproduces, s => reproduces s
  | .does_not_reproduce, s => does_not_reproduce s
  | .no_change, s => no_change s

/-- Feed a sequence of verdicts to the controller, stopping at a panic. -/
def runVerdicts : List Verdict → PassControllerState → Except Panic PassControllerState
  | [], s => .ok s
  | v :: vs, s =>
    match step v s with
    | .ok s' => runVerdicts vs s'
    | .error e => .error e

end PassController

/-! ### Driver entry point (`Minimizer::run_passes`, `src/processor/mod.rs`)

`run_passes` first calls `self.build.build()?` once, `ensure!`s that the
result reproduces the issue, and only then runs each pass in order with
`self.run_pass(&mut *pass)?`.  The build and the individual pass runs are
effectful collaborators; the embedding abstracts them as state-passing
functions over an arbitrary state type `S`, so that instantiating `S` with
an event trace makes the call order observable. -/

/-- Errors `run_passes` can surface: the `ensure!` failure, a failed
`Build::build`, or an error propagated out of `run_pass`. -/
inductive DriverError where
  | doesNotReproduce
  | buildFailed
  | passFailed
  deriving DecidableEq, Repr

/-- Observable driver actions: one verifier build, or one full pass run. -/
inductive DriverEvent (P : Type) where
  | build
  | runPass (p : P)

namespace Minimizer

/-- The `for mut pass in passes { self.run_pass(&mut *pass)?; }` loop:
run each pass in the supplied order, propagating the first error. -/
def runPassList {S P : Type} (run_pass : P → S → Except DriverError S) :
    List P → S → Except DriverError S
  | [], s => .ok s
  | p :: ps, s =>
    match run_pass p s with
    | .ok s' => runPassList run_pass ps s'
    | .error e => .error e

/-- `Minimizer::run_passes`: build once, fail with `DoesNotReproduce` unless
the initial build reproduces the issue, then run the passes in order. -/
def run_passes {S P : Type} (build : S → Except DriverError (Bool × S))
    (run_pass : P → S → Except DriverError S) (passes : List P) (s : S) :
    Except DriverError S :=
  match build s with
  | .error e => .error e
  | .ok (repro, s') =>
    if repro then runPassList run_pass passes s'
    else .error .doesNotReproduce

end Minimizer

/-! ### Files (`SourceFile` / `FileChange`, `src/processor/files.rs`)

The syntactic tree type, the formatter and the parser are external and kept
as parameters (`Tree`, `format`, `parse`); a `format` returning `none`
models a `FormatError`.  The outcome of each raw `fs::write` is a `Bool`
parameter of the operation performing it (`false` models an `IOError`,
with the file left unchanged).  The inner mutation of the Rust code is made
explicit: every operation returns its result alongside the state after the
call, so cache updates on error paths are observable. -/

/-- Failures of `SourceFile::write`: formatting or the disk write. -/
inductive FsError where
  | formatError
  | ioError
  deriving DecidableEq, Repr

/-- `struct SourceFile` (module `file` of `src/processor/files.rs`) together
with the content of its file on disk.  `content_str` and `content` are the
two `RefCell` caches; `diskContent` is what the file at `self.path` holds. -/
structure SourceFile (Tree : Type) where
  diskContent : String
  content_str : String
  content : Tree
  deriving DecidableEq, Repr

namespace SourceFile

/-- `SourceFile::open`: read the text from disk, parse it, cache both raw.
A `parse` returning `none` models a `ParseError`. -/
def openFile {Tree : Type} (parse : String → Option Tree) (raw : String) :
    Option (SourceFile Tree) :=
  (parse raw).map fun t => ⟨raw, raw, t⟩

/-- `SourceFile::write`: format the new tree (else `FormatError`), write the
text to disk (else `IOError`), and only then update both caches. -/
def write {Tree : Type} (format : Tree → Option String) (fsWriteOk : Bool)
    (s : SourceFile Tree) (new : Tree) :
    Except FsError Unit × SourceFile Tree :=
  match format new with
  | none => (.error .formatError, s)
  | some string =>
    if fsWriteOk then
      (.ok (), { diskContent := string, content_str := string, content := new })
    else (.error .ioError, s)

end SourceFile

/-- `struct FileChange`: the snapshots taken at `try_change` time and the
`has_written_change` flag.  (The borrowed `path`, `source_file` and
`changes` fields are the operation arguments of the embedding.) -/
structure FileChange (Tree : Type) where
  before_content_str : String
  before_content : Tree
  has_written_change : Bool
  deriving DecidableEq, Repr

/-- `SourceFile::try_change`: snapshot the current caches into a fresh
`FileChange` with the flag clear. -/
def SourceFile.try_change {Tree : Type} (s : SourceFile Tree) : FileChange Tree :=
  { before_content_str := s.content_str
    before_content := s.content
    has_written_change := false }

namespace FileChange

/-- `FileChange::write`: set `has_written_change` (before the fallible call,
as in the source), then delegate to `SourceFile::write`. -/
def write {Tree : Type} (format : Tree → Option String) (fsWriteOk : Bool)
    (fc : FileChange Tree) (s : SourceFile Tree) (new : Tree) :
    Except FsError Unit × FileChange Tree × SourceFile Tree :=
  let fc' := { fc with has_written_change := true }
  let ws := SourceFile.write format fsWriteOk s new
  (ws.1, fc', ws.2)

/-- `FileChange::rollback`: `assert!(has_written_change)`, clear the flag,
then write the pre-edit *tree* snapshot back through `SourceFile::write`
(re-formatting it); the write's error, if any, is returned to the caller. -/
def rollback {Tree : Type} (format : Tree → Option String) (fsWriteOk : Bool)
    (fc : FileChange Tree) (s : SourceFile Tree) :
    Except Panic (Except FsError Unit × FileChange Tree × SourceFile Tree) :=
  if fc.has_written_change then
    let fc' := { fc with has_written_change := false }
    let ws := SourceFile.write format fsWriteOk s fc.before_content
    .ok (ws.1, fc', ws.2)
  else .error .assertionFailed

/-- `FileChange::commit`: `assert!(has_written_change)`, clear the flag and
set the shared `Changes::any_change` flag to `true`. -/
def commit {Tree : Type} (fc : FileChange Tree) (_changes : Bool) :
    Except Panic (FileChange Tree × Bool) :=
  if fc.has_written_change then
    .ok ({ fc with has_written_change := false }, true)
  else .error .assertionFailed

/-- `<FileChange as Drop>::drop`: only when `has_written_change` is still
set, restore the pre-edit *text* snapshot with a raw `fs::write` (its error
ignored, caches not updated) and panic (`true` in the second component)
unless the thread is already panicking. -/
def dropChange {Tree : Type} (fsWriteOk : Bool)
    (fc : FileChange Tree) (s : SourceFile Tree) :
    SourceFile Tree × Bool :=
  if fc.has_written_change then
    (if fsWriteOk then { s with diskContent := fc.before_content_str } else s,
     true)
  else (s, false)

end FileChange

end CargoMinimize

namespace CargoMinimize

/-- Claim C4: `can_process(path)` appends `path` to the candidate sequence
and returns `true` in `InitialCollection`; in `Bisecting` it leaves the
state unchanged and returns `true` exactly when `path` is in `current`; in
`Success` it panics. -/
theorem c4_can_process_spec :
    (∀ (candidates : List AstPath) (path : AstPath),
      PassController.can_process path (.initialCollection candidates) =
        .ok (true, .initialCollection (candidates ++ [path]))) ∧
    (∀ (current : Finset AstPath) (worklist : List (List AstPath)) (path : AstPath),
      ∃ b : Bool,
        PassController.can_process path (.bisecting current worklist) =
          .ok (b, .bisecting current worklist) ∧ (b = true ↔ path ∈ current)) ∧
    (∀ path : AstPath,
      PassController.can_process path .success = .error .processedAfterSuccess) := by
  refine ⟨fun _ _ => rfl, fun current worklist path => ?_, fun _ => rfl⟩
  exact ⟨decide (path ∈ current), rfl, decide_eq_true_iff⟩

/-- Claim C5: `reproduces()` sends `InitialCollection` to `Success`; in
`Bisecting` with a non-empty worklist it pops the last worklist entry and
makes it the new `current` (as a set); with an empty worklist it goes to
`Success`; in `Success` it panics. -/
theorem c5_reproduces_spec :
    (∀ candidates : List AstPath,
      PassController.reproduces (.initialCollection candidates) = .ok .success) ∧
    (∀ (current : Finset AstPath) (worklist : List (List AstPath)) (next : List AstPath),
      PassController.reproduces (.bisecting current (worklist ++ [next])) =
        .ok (.bisecting next.toFinset worklist)) ∧
    (∀ current : Finset AstPath,
      PassController.reproduces (.bisecting current []) = .ok .success) ∧
    PassController.reproduces .success = .error .processedAfterSuccess := by
  refine ⟨fun _ => rfl, fun current worklist next => ?_, fun _ => rfl, rfl⟩
  simp [PassController.reproduces, List.getLast?_concat, List.dropLast_concat]

/-- Claim C6: `does_not_reproduce()` from `InitialCollection` with candidate
sequence `c` enters `Bisecting` whose `current` is the set of the first
`⌊|c| / 2⌋` candidates and whose worklist is the one-element sequence
holding the remaining candidates, in order (the two halves partition `c`). -/
theorem c6_does_not_reproduce_initial_spec :
    ∀ candidates : List AstPath,
      PassController.does_not_reproduce (.initialCollection candidates) =
        .ok (.bisecting (candidates.take (candidates.length / 2)).toFinset
          [candidates.drop (candidates.length / 2)]) ∧
      candidates.take (candidates.length / 2) ++
          candidates.drop (candidates.length / 2) = candidates := by
  exact fun candidates => ⟨rfl, candidates.take_append_drop _⟩

/-- Claim C7: `no_change()` sends `InitialCollection` with no candidates to
`Success`, panics on `InitialCollection` with candidates, panics in
`Bisecting`, and is a no-op in `Success`. -/
theorem c7_no_change_spec :
    PassController.no_change (.initialCollection []) = .ok .success ∧
    (∀ (p : AstPath) (ps : List AstPath),
      PassController.no_change (.initialCollection (p :: ps)) =
        .error .noChangeWithCandidates) ∧
    (∀ (current : Finset AstPath) (worklist : List (List AstPath)),
      PassController.no_change (.bisecting current worklist) =
        .error .noChangeWhileBisecting) ∧
    PassController.no_change .success = .ok .success := by
  exact ⟨rfl, fun _ _ => rfl, fun _ _ => rfl, rfl⟩

/-- Claim C1: the specification asserts that `current` is non-empty in every
`Bisecting` state.  The code violates this: `does_not_reproduce` on an
`InitialCollection` holding a single candidate takes `half = 1 / 2 = 0`, so
the first half is empty and the controller enters `Bisecting` with
`current = ∅`.  On the following trial no site is enabled, the pass reports
no change, and `no_change` then hits its own
`unreachable!("No change while bisecting, current was empty somehow")`. -/
theorem c1_bisecting_empty_current_bug :
    PassController.does_not_reproduce (.initialCollection [["f"]]) =
      .ok (.bisecting (∅ : Finset AstPath) [[["f"]]]) ∧
    PassController.no_change (.bisecting (∅ : Finset AstPath) [[["f"]]]) =
      .error .noChangeWhileBisecting := by
  constructor <;> rfl

/-- Claim C2: the specification asserts termination in `Success` within
O(n log n) verifier verdicts for every verdict sequence.  The code instead
aborts: with two collected candidates, the verdict sequence
`does_not_reproduce, does_not_reproduce` reaches the `Bisecting` arm of
`does_not_reproduce`, which is `todo!()` in the source and panics before
`Success` is ever reached. -/
theorem c2_bisect_todo_abort :
    PassController.runVerdicts
      [.does_not_reproduce, .does_not_reproduce]
      (.initialCollection [["a"], ["b"]]) = .error .todoBisect := by
  rfl

/-- The pass loop of `run_passes`, run over an event trace, appends the pass
events in the supplied order. -/
theorem runPassList_trace {P : Type} (passes : List P) (tr : List (DriverEvent P)) :
    Minimizer.runPassList (fun p t => .ok (t ++ [DriverEvent.runPass p])) passes tr =
      .ok (tr ++ passes.map DriverEvent.runPass) := by
  induction passes generalizing tr with
  | nil => simp [Minimizer.runPassList]
  | cons p ps ih => simp [Minimizer.runPassList, ih]

/-- Claim C3: over an event trace, `run_passes` produces exactly one build
event before any pass event; when that initial build does not reproduce the
issue it returns the `DoesNotReproduce` error with no pass having run; when
it does reproduce, the passes run in the supplied order. -/
theorem c3_run_passes_spec (P : Type) (repro : Bool) (passes : List P) :
    Minimizer.run_passes
      (fun tr : List (DriverEvent P) => .ok (repro, tr ++ [DriverEvent.build]))
      (fun p tr => .ok (tr ++ [DriverEvent.runPass p])) passes [] =
      (if repro then .ok (DriverEvent.build :: passes.map DriverEvent.runPass)
       else .error DriverError.doesNotReproduce) := by
  cases repro with
  | false => rfl
  | true => simp [Minimizer.run_passes, runPassList_trace]

/-- The formatter of the claim C8 scenario: it renders the tree `0` as
`"fmt0"` and every other tree as `"fmt1"` (a formatter whose output is
normalized, so it does not reproduce the raw input `"raw"`). -/
def fmtNormalizing : Nat → Option String :=
  fun t => some (if t = 0 then "fmt0" else "fmt1")

/-- The parser of the claim C8 scenario: `"raw"` parses to the tree `0`. -/
def parseRaw : String → Option Nat :=
  fun s => if s = "raw" then some (0 : Nat) else none

/-- The freshly opened source file of the claim C8 scenario: on disk and in
the text cache the raw text `"raw"`, in the tree cache its parse `0`. -/
def rawFile : SourceFile Nat := ⟨"raw", "raw", 0⟩

/-- Claim C8, counterexample: on a freshly opened file whose raw text is not
formatter-normal, a `FileChange` that writes and then ends its scope by
`rollback()` (never calling `commit()`) leaves `"fmt0"` — the formatter's
rendering of the pre-edit tree — on disk, not the creation-time content
`"raw"`.  All writes succeed, and the subsequent drop is a no-op. -/
theorem c8_rollback_reformat_counterexample :
    SourceFile.openFile parseRaw "raw" = some rawFile ∧
    FileChange.write fmtNormalizing true rawFile.try_change rawFile 1 =
      (.ok (), ⟨"raw", 0, true⟩, ⟨"fmt1", "fmt1", 1⟩) ∧
    FileChange.rollback fmtNormalizing true ⟨"raw", 0, true⟩ ⟨"fmt1", "fmt1", 1⟩ =
      .ok (.ok (), ⟨"raw", 0, false⟩, ⟨"fmt0", "fmt0", 0⟩) ∧
    FileChange.dropChange true (⟨"raw", 0, false⟩ : FileChange Nat)
        ⟨"fmt0", "fmt0", 0⟩ = (⟨"fmt0", "fmt0", 0⟩, false) ∧
    (⟨"fmt0", "fmt0", 0⟩ : SourceFile Nat).diskContent ≠ rawFile.diskContent := by
  exact ⟨rfl, rfl, rfl, rfl, by decide⟩

/-- Claim C8 (amended): for a `FileChange` created on a `SourceFile` whose
disk content equals its cached text, with `commit()` never called:
if the scope ends by drop after a write (whatever that write's outcome),
the restoring write puts the creation-time content back on disk verbatim;
if the scope ends by a successful `rollback()`, the disk holds the
formatter's rendering of the pre-edit tree — equal to the creation-time
content whenever that content is formatter-normal — the flag is cleared and
the subsequent drop is a no-op. -/
theorem c8_transactionality (Tree : Type) (format : Tree → Option String)
    (s0 : SourceFile Tree) (new : Tree) (wOk : Bool)
    (hdisk : s0.diskContent = s0.content_str)
    (hnorm : format s0.content = some s0.content_str) :
    ((FileChange.dropChange true
        (FileChange.write format wOk s0.try_change s0 new).2.1
        (FileChange.write format wOk s0.try_change s0 new).2.2).1).diskContent
      = s0.diskContent ∧
    FileChange.rollback format true
        (FileChange.write format wOk s0.try_change s0 new).2.1
        (FileChange.write format wOk s0.try_change s0 new).2.2 =
      .ok (.ok (), ⟨s0.content_str, s0.content, false⟩,
        ⟨s0.content_str, s0.content_str, s0.content⟩) ∧
    (⟨s0.content_str, s0.content_str, s0.content⟩ : SourceFile Tree).diskContent
      = s0.diskContent ∧
    FileChange.dropChange true
        (⟨s0.content_str, s0.content, false⟩ : FileChange Tree)
        ⟨s0.content_str, s0.content_str, s0.content⟩ =
      (⟨s0.content_str, s0.content_str, s0.content⟩, false) := by
  cases hfn : format new with
  | none =>
    cases wOk <;>
      simp [FileChange.write, SourceFile.write, SourceFile.try_change,
        FileChange.rollback, FileChange.dropChange, hfn, hnorm, hdisk]
  | some str =>
    cases wOk <;>
      simp [FileChange.write, SourceFile.write, SourceFile.try_change,
        FileChange.rollback, FileChange.dropChange, hfn, hnorm, hdisk]

/-- Witness for the amended claim C8 at a concrete formatter-normal file. -/
theorem c8_transactionality_witness :
    ((FileChange.dropChange true
        (FileChange.write (fun _ : Nat => some "x") true
          (SourceFile.try_change ⟨"x", "x", 0⟩) ⟨"x", "x", 0⟩ 1).2.1
        (FileChange.write (fun _ : Nat => some "x") true
          (SourceFile.try_change ⟨"x", "x", 0⟩) ⟨"x", "x", 0⟩ 1).2.2).1).diskContent
      = (⟨"x", "x", 0⟩ : SourceFile Nat).diskContent :=
  (c8_transactionality Nat (fun _ => some "x") ⟨"x", "x", 0⟩ 1 true rfl rfl).1

/-- Claim C9: `SourceFile::write` formats the tree, writes the text to disk
and only then updates the caches; if formatting fails or the disk write
fails, the caches (indeed the whole state) are exactly as before the call;
on success disk and both caches hold the formatted text and the new tree. -/
theorem c9_write_all_or_nothing (Tree : Type) (format : Tree → Option String)
    (fsWriteOk : Bool) (s : SourceFile Tree) (new : Tree) :
    (format new = none →
      SourceFile.write format fsWriteOk s new = (.error .formatError, s)) ∧
    (∀ str, format new = some str →
      SourceFile.write format fsWriteOk s new =
        if fsWriteOk then (.ok (), ⟨str, str, new⟩) else (.error .ioError, s)) := by
  constructor
  · intro h
    simp [SourceFile.write, h]
  · intro str h
    simp [SourceFile.write, h]

/-- Witness for claim C9 at a concrete successful write. -/
theorem c9_write_all_or_nothing_witness :
    SourceFile.write (fun _ : Nat => some "t") true ⟨"a", "a", 0⟩ 1 =
      if true then (.ok (), (⟨"t", "t", 1⟩ : SourceFile Nat))
      else (.error .ioError, ⟨"a", "a", 0⟩) :=
  (c9_write_all_or_nothing Nat (fun _ => some "t") true ⟨"a", "a", 0⟩ 1).2 "t" rfl

/-- Claim C10: `rollback` clears `has_written_change` before the restoring
write, so when that write fails the error is returned to the caller, the
returned `FileChange` has the flag clear, the state — the edited disk
content included — is untouched, and the drop handler performs no further
restore attempt and does not panic. -/
theorem c10_failed_rollback_no_restore (Tree : Type) (format : Tree → Option String)
    (fc : FileChange Tree) (s : SourceFile Tree)
    (hw : fc.has_written_change = true) :
    ∃ e : FsError,
      FileChange.rollback format false fc s =
        .ok (.error e, ⟨fc.before_content_str, fc.before_content, false⟩, s) ∧
      FileChange.dropChange true
        (⟨fc.before_content_str, fc.before_content, false⟩ : FileChange Tree) s =
        (s, false) := by
  cases hfn : format fc.before_content with
  | none =>
    exact ⟨.formatError, by
      simp [FileChange.rollback, SourceFile.write, FileChange.dropChange, hw, hfn], by
      simp [FileChange.dropChange]⟩
  | some str =>
    exact ⟨.ioError, by
      simp [FileChange.rollback, SourceFile.write, FileChange.dropChange, hw, hfn], by
      simp [FileChange.dropChange]⟩

/-- Witness for claim C10 at a concrete written change whose restoring
write fails. -/
theorem c10_failed_rollback_no_restore_witness :
    ∃ e : FsError,
      FileChange.rollback (fun _ : Nat => some "f") false ⟨"raw", 0, true⟩
          ⟨"edited", "edited", 1⟩ =
        .ok (.error e, ⟨"raw", 0, false⟩, ⟨"edited", "edited", 1⟩) ∧
      FileChange.dropChange true (⟨"raw", 0, false⟩ : FileChange Nat)
          ⟨"edited", "edited", 1⟩ =
        (⟨"edited", "edited", 1⟩, false) :=
  c10_failed_rollback_no_restore Nat (fun _ => some "f") ⟨"raw", 0, true⟩
    ⟨"edited", "edited", 1⟩ rfl

end CargoMinimize
